import Mathlib

/-!
Verification of the user-account API (`app/user`): user registration,
token-based authentication, and profile retrieval/update.

The data model and operations are embedded shallowly.  `views.py` (present
in the repository) is embedded as written, including the attribute lookup
its class definition performs on the external framework module.  The
serializer and the token/profile views are not present in the source tree;
they are modelled from the specification, and each such definition says so
in its doc comment.
-/

/-- A stored user record: identity (email, name) and the salted password
hash.  The password is stored only hashed (`data model` section of the
spec); hashing itself is an external framework primitive, modelled below. -/
structure User where
  name : String
  email : String
  passwordHash : String
deriving Repr, DecidableEq

/-- External framework primitive (out of scope for the repository): salted
password hashing, modelled as an injective tagging function. -/
def hashPassword (p : String) : String := "pbkdf2$" ++ p

/-- External framework primitive: `user.check_password(p)` — the stored
hash verifies against the submitted raw password. -/
def User.check_password (u : User) (p : String) : Bool :=
  u.passwordHash == hashPassword p

/-- The user record store (the relational table behind
`get_user_model().objects`). -/
abbrev Store := List User

/-- `objects.get`/`objects.filter` by email: the first stored user whose
email matches. -/
def findByEmail (s : Store) (e : String) : Option User :=
  s.find? (fun u => u.email == e)

/-- `objects.filter(email=...).exists()`. -/
def emailExists (s : Store) (e : String) : Bool :=
  (findByEmail s e).isSome

/-- An HTTP response: status code and a body of key/value fields. -/
structure Response where
  status : Nat
  body : List (String × String)
deriving Repr, DecidableEq

/-- Whether the response body contains a field with the given key
(`assertIn`/`assertNotIn` on `result.data`). -/
def Response.hasField (r : Response) (k : String) : Bool :=
  r.body.any (fun kv => kv.1 == k)

/-- Payload of a registration request (`{name, email, password}`). -/
structure RegisterRequest where
  name : String
  email : String
  password : String
deriving Repr, DecidableEq

/-- Modelled from the spec: `user/serializers.py` (`UserSerializer`) is not
in the source tree.  Spec §4.1: "fails with ValidationError if email
already registered or password shorter than 5 characters; otherwise
creates User with hashed password and returns the created identity
(name, email) — password never echoed back." -/
def UserSerializer.create (req : RegisterRequest) (s : Store) :
    Except String (User × Store) :=
  if emailExists s req.email then
    .error "email already registered"
  else if req.password.length < 5 then
    .error "password too short"
  else
    let u : User :=
      { name := req.name, email := req.email,
        passwordHash := hashPassword req.password }
    .ok (u, s ++ [u])

/-- Modelled from the spec: the behaviour a framework `CreateAPIView`
would give the registration endpoint if its class definition succeeded —
run the serializer; on success 201 with the created identity, on
validation failure 400. -/
def createHandler (req : RegisterRequest) (s : Store) : Response × Store :=
  match UserSerializer.create req s with
  | .error _ => ({ status := 400, body := [] }, s)
  | .ok (u, s') =>
      ({ status := 201, body := [("name", u.name), ("email", u.email)] }, s')

/-- The public attribute names of the external framework module
`rest_framework.generics` (its generic view classes and helpers).  The
framework is an external collaborator; this is its actual API surface. -/
def genericsAttrs : List String :=
  ["GenericAPIView", "CreateAPIView", "ListAPIView", "RetrieveAPIView",
   "DestroyAPIView", "UpdateAPIView", "ListCreateAPIView",
   "RetrieveUpdateAPIView", "RetrieveDestroyAPIView",
   "RetrieveUpdateDestroyAPIView", "get_object_or_404", "mixins", "views"]

/-- From `user/views.py` line 6: the base class of `CreateUserView` is
named by the attribute `CreateeAPIView` of the generics module. -/
def CreateUserView.baseName : String := "CreateeAPIView"

/-- Evaluating `user/views.py`: the statement
`class CreateUserView(generics.CreateeAPIView)` first evaluates the
attribute `generics.CreateeAPIView`; if the attribute does not exist the
lookup raises and the class is never defined (`none`), otherwise the view
class (its handler) comes into existence. -/
def CreateUserView? : Option (RegisterRequest → Store → Response × Store) :=
  if CreateUserView.baseName ∈ genericsAttrs then some createHandler else none

/-- A POST to the registration endpoint as the source defines it: it is
served by `CreateUserView` when that class exists, and produces no
response at all when the class definition failed. -/
def postCreateUser (req : RegisterRequest) (s : Store) :
    Option (Response × Store) :=
  CreateUserView?.map (fun h => h req s)

/-- C3: the registration view subclasses `generics.CreateeAPIView`, an
attribute that does not exist on the framework's generics module, so the
class definition fails and no well-formed `CreateUserView` exists. -/
theorem createUserView_base_missing :
    CreateUserView.baseName ∉ genericsAttrs ∧ CreateUserView? = none := by
  constructor
  · decide
  · rfl

/-- C1 (code bug): on the valid fresh payload of
`test_create_valid_user_success`, the registration endpoint as written
produces no response at all — in particular no 201 with the created
identity — because `CreateUserView` is undefined. -/
theorem registration_success_impossible :
    postCreateUser
      { name := "Deb Prasad Bhattrai", email := "test.deb@gmail.com",
        password := "deb123" } [] = none := by
  rfl

/-- C4 (code bug): on the short-password payload of
`test_password_too_short`, the registration endpoint as written produces
no response at all — in particular not the 400 the test expects —
because `CreateUserView` is undefined. -/
theorem short_password_no_response :
    postCreateUser
      { name := "NewUser", email := "test.deb@gmail.com", password := "pw" }
      [] = none := by
  rfl

/-- C5 (code bug): with the user of `test_user_exists` already stored, a
second registration with the same email produces no response at all — in
particular not the 400 the test expects — because `CreateUserView` is
undefined. -/
theorem duplicate_email_no_response :
    postCreateUser
      { name := "Deb Prasad Bhattrai", email := "test12.deb@gmail.com",
        password := "deb123543" }
      [{ name := "Deb Prasad Bhattrai", email := "test12.deb@gmail.com",
         passwordHash := hashPassword "deb123543" }] = none := by
  rfl

/-- External framework primitive: the opaque token the token store issues
for a user, modelled as a deterministic function of the owning user. -/
def tokenFor (u : User) : String := "token$" ++ u.email

/-- The single failure response of the token endpoint: validation error
("unable to authenticate"), status 400, no token field. -/
def tokenErrorResponse : Response :=
  { status := 400,
    body := [("non_field_errors",
              "Unable to authenticate with provided credentials")] }

/-- Payload of a token request (`{email, password}`). -/
structure TokenRequest where
  email : String
  password : String
deriving Repr, DecidableEq

/-- Modelled from the spec: the token view and its serializer
(`AuthTokenSerializer`) are not in the source tree.  Spec §4.2: "fails
with ValidationError (\x22unable to authenticate\x22) if credentials do not
match a stored user or any required field is missing/empty; otherwise
returns a token bound to that user." -/
def createToken (req : TokenRequest) (s : Store) : Response :=
  if req.email.isEmpty || req.password.isEmpty then
    tokenErrorResponse
  else
    match findByEmail s req.email with
    | none => tokenErrorResponse
    | some u =>
        if u.check_password req.password then
          { status := 200, body := [("token", tokenFor u)] }
        else
          tokenErrorResponse

/-- C2: a token request succeeds with 200 and a token bound to the matched
user exactly when both fields are non-empty and the credentials match a
stored user; in every other case it fails with 400 and the response has no
token field. -/
theorem token_endpoint_correct (req : TokenRequest) (s : Store) :
    (∀ u, findByEmail s req.email = some u →
        u.check_password req.password = true →
        req.email ≠ "" → req.password ≠ "" →
        createToken req s
          = { status := 200, body := [("token", tokenFor u)] }) ∧
    (¬ (req.email ≠ "" ∧ req.password ≠ "" ∧
          ∃ u, findByEmail s req.email = some u ∧
            u.check_password req.password = true) →
        (createToken req s).status = 400 ∧
        (createToken req s).hasField "token" = false) := by
  constructor
  · intro u hu hchk he hp
    have he' : req.email.isEmpty = false := by
      rw [Bool.eq_false_iff]
      intro hcon
      exact he ((String.isEmpty_iff req.email).mp hcon)
    have hp' : req.password.isEmpty = false := by
      rw [Bool.eq_false_iff]
      intro hcon
      exact hp ((String.isEmpty_iff req.password).mp hcon)
    simp [createToken, he', hp', hu, hchk]
  · intro hno
    unfold createToken
    cases hge : req.email.isEmpty with
    | true =>
        simp only [hge, Bool.true_or, if_true]
        exact ⟨rfl, rfl⟩
    | false =>
        cases hgp : req.password.isEmpty with
        | true =>
            simp only [hge, hgp, Bool.or_true, if_true]
            exact ⟨rfl, rfl⟩
        | false =>
            have he' : req.email ≠ "" := by
              intro hcon
              rw [hcon] at hge
              exact absurd hge (by decide)
            have hp' : req.password ≠ "" := by
              intro hcon
              rw [hcon] at hgp
              exact absurd hgp (by decide)
            simp only [hge, hgp, Bool.or_self, Bool.false_eq_true, if_false]
            cases hfind : findByEmail s req.email with
            | none =>
                simp only [hfind]
                exact ⟨rfl, rfl⟩
            | some u =>
                have hc : u.check_password req.password = false := by
                  rw [Bool.eq_false_iff]
                  intro hcon
                  exact hno ⟨he', hp', u, hfind, hcon⟩
                simp only [hfind, hc, Bool.false_eq_true, if_false]
                exact ⟨rfl, rfl⟩

/-- C2 witness: the payload of `test_create_token_for_user` against a
store holding that user yields 200 with the token bound to the user. -/
theorem token_endpoint_correct_witness :
    createToken { email := "testdeb@mail.com", password := "passwd123" }
        [{ name := "tester", email := "testdeb@mail.com",
           passwordHash := hashPassword "passwd123" }]
      = { status := 200,
          body := [("token",
            tokenFor { name := "tester", email := "testdeb@mail.com",
                       passwordHash := hashPassword "passwd123" })] } :=
  (token_endpoint_correct _ _).1 _ (by decide) (by decide) (by decide)
    (by decide)

/-- C10: a token request whose email matches no stored user and one whose
email matches a stored user but whose password is wrong produce literally
the same response: status 400 with no token field in either, so the two
failure causes are indistinguishable to the caller. -/
theorem token_failure_indistinguishable (r1 r2 : TokenRequest) (s : Store)
    (h1 : findByEmail s r1.email = none)
    (h2 : ∃ u, findByEmail s r2.email = some u ∧
            u.check_password r2.password = false) :
    createToken r1 s = createToken r2 s ∧
    (createToken r1 s).status = 400 ∧
    (createToken r1 s).hasField "token" = false ∧
    (createToken r2 s).hasField "token" = false := by
  obtain ⟨u, hu, hc⟩ := h2
  have e1 : createToken r1 s = tokenErrorResponse := by
    unfold createToken
    by_cases hg : (r1.email.isEmpty || r1.password.isEmpty) = true
    · simp [hg]
    · simp [hg, h1]
  have e2 : createToken r2 s = tokenErrorResponse := by
    unfold createToken
    by_cases hg : (r2.email.isEmpty || r2.password.isEmpty) = true
    · simp [hg]
    · simp [hg, hu, hc]
  rw [e1, e2]
  exact ⟨rfl, rfl, rfl, rfl⟩

/-- C10 witness: the concrete pair from `test_create_no_user` and
`test_create_token_invalid_credentials` against the latter's store. -/
theorem token_failure_indistinguishable_witness :
    createToken { email := "test.deb@gmail.com", password := "passwd123" }
        [{ name := "", email := "testdeb@gmail.com",
           passwordHash := hashPassword "test123433" }]
      = createToken { email := "testdeb@gmail.com", password := "passwd123" }
          [{ name := "", email := "testdeb@gmail.com",
             passwordHash := hashPassword "test123433" }] ∧
    (createToken { email := "test.deb@gmail.com", password := "passwd123" }
        [{ name := "", email := "testdeb@gmail.com",
           passwordHash := hashPassword "test123433" }]).status = 400 ∧
    (createToken { email := "test.deb@gmail.com", password := "passwd123" }
        [{ name := "", email := "testdeb@gmail.com",
           passwordHash := hashPassword "test123433" }]).hasField "token"
      = false ∧
    (createToken { email := "testdeb@gmail.com", password := "passwd123" }
        [{ name := "", email := "testdeb@gmail.com",
           passwordHash := hashPassword "test123433" }]).hasField "token"
      = false :=
  token_failure_indistinguishable _ _ _ (by decide)
    ⟨{ name := "", email := "testdeb@gmail.com",
       passwordHash := hashPassword "test123433" }, by decide, by decide⟩

/-- HTTP methods exercised on the profile endpoint by the tests. -/
inductive Method
  | get
  | post
  | patch
deriving Repr, DecidableEq

/-- A request to the profile endpoint: the method and the optional body
fields a partial update may supply. -/
structure MeRequest where
  method : Method
  nameField : Option String
  passwordField : Option String
deriving Repr, DecidableEq

/-- Saving a changed record back to the store: every stored row whose
email matches is replaced. -/
def updateByEmail (s : Store) (e : String) (u2 : User) : Store :=
  s.map (fun v => if v.email == e then u2 else v)

/-- Modelled from the spec: the serializer's partial update
(`UserSerializer.update`, not in the source tree).  Spec §4.3: "applies
supplied fields (name, password — password re-hashed)"; the unsupplied
fields, in particular the email, stay as stored. -/
def patchedUser (u : User) (n p : Option String) : User :=
  { name := n.getD u.name,
    email := u.email,
    passwordHash :=
      match p with
      | some pw => hashPassword pw
      | none => u.passwordHash }

/-- Modelled from the spec: the profile view (`ManageUserView`, not in the
source tree).  Spec §4.3: requires an authenticated caller; read returns
{name, email} for the caller's own record only; partial update applies the
supplied fields; other methods (e.g. create) fail with MethodNotAllowed;
unauthenticated access fails with Unauthorized.  `auth` is the caller
identity the external token-auth layer established, `none` when the
request carries no valid credentials. -/
def manageUser (auth : Option String) (req : MeRequest) (s : Store) :
    Response × Store :=
  match auth with
  | none => ({ status := 401, body := [] }, s)
  | some e =>
      match findByEmail s e with
      | none => ({ status := 401, body := [] }, s)
      | some u =>
          match req.method with
          | .get =>
              ({ status := 200,
                 body := [("name", u.name), ("email", u.email)] }, s)
          | .patch =>
              ({ status := 200,
                 body := [("name",
                           (patchedUser u req.nameField req.passwordField).name),
                          ("email",
                           (patchedUser u req.nameField req.passwordField).email)] },
               updateByEmail s e (patchedUser u req.nameField req.passwordField))
          | .post => ({ status := 405, body := [] }, s)

/-- The record `findByEmail` returns carries the email it was looked up
by. -/
theorem findByEmail_email {s : Store} {e : String} {u : User}
    (h : findByEmail s e = some u) : u.email = e := by
  have h' : List.find? (fun x => x.email == e) s = some u := h
  have hp := List.find?_some h'
  exact eq_of_beq hp

/-- Lookup by email stops at a matching head. -/
theorem find?_email_cons_true {v : User} {t : List User} {e : String}
    (hv : (v.email == e) = true) :
    List.find? (fun x => x.email == e) (v :: t) = some v := by
  simp [List.find?_cons, hv]

/-- Lookup by email skips a non-matching head. -/
theorem find?_email_cons_false {v : User} {t : List User} {e : String}
    (hv : (v.email == e) = false) :
    List.find? (fun x => x.email == e) (v :: t)
      = List.find? (fun x => x.email == e) t := by
  simp [List.find?_cons, hv]

/-- Replacing the record found at an email with a record carrying the same
email is observed by a subsequent lookup at that email. -/
theorem findByEmail_update (s : Store) (e : String) (u u2 : User)
    (h : findByEmail s e = some u) (he : u2.email = e) :
    findByEmail (updateByEmail s e u2) e = some u2 := by
  induction s with
  | nil => exact absurd h (by simp [findByEmail])
  | cons v t ih =>
      cases hv : v.email == e with
      | true =>
          show List.find? (fun x => x.email == e)
              ((if v.email == e then u2 else v) :: updateByEmail t e u2)
            = some u2
          rw [if_pos hv]
          exact find?_email_cons_true (beq_iff_eq.mpr he)
      | false =>
          have h' : findByEmail t e = some u := by
            have hh : List.find? (fun x => x.email == e) (v :: t) = some u := h
            rwa [find?_email_cons_false hv] at hh
          show List.find? (fun x => x.email == e)
              ((if v.email == e then u2 else v) :: updateByEmail t e u2)
            = some u2
          rw [if_neg (by simp [hv])]
          rw [find?_email_cons_false hv]
          exact ih h'

/-- C6: an authenticated GET on the profile endpoint returns 200 with a
body equal to exactly the name and email of the caller's own stored
record, and leaves the store unchanged. -/
theorem profile_get_own_record (e : String) (s : Store) (u : User)
    (h : findByEmail s e = some u) :
    manageUser (some e)
        { method := .get, nameField := none, passwordField := none } s
      = ({ status := 200, body := [("name", u.name), ("email", u.email)] },
         s) := by
  simp [manageUser, h]

/-- The user record of the authenticated test fixture
(`PrivateUserApiTest.setUp`). -/
def testUserRecord : User :=
  { name := "test", email := "debtest@gmail.com",
    passwordHash := hashPassword "pwd12e343" }

/-- C6 witness: the fixture user retrieves exactly its own name and
email. -/
theorem profile_get_own_record_witness :
    manageUser (some "debtest@gmail.com")
        { method := .get, nameField := none, passwordField := none }
        [testUserRecord]
      = ({ status := 200,
           body := [("name", testUserRecord.name),
                    ("email", testUserRecord.email)] },
         [testUserRecord]) :=
  profile_get_own_record _ _ _ (by decide)

/-- C7: every unauthenticated request to the profile endpoint, whatever
its method and body, fails with 401 and an empty body (no profile data),
leaving the store unchanged. -/
theorem profile_unauthenticated_401 (req : MeRequest) (s : Store) :
    manageUser none req s = ({ status := 401, body := [] }, s) := rfl

/-- C8: an authenticated PATCH supplying an optional name and an optional
password returns 200, and afterwards the caller's stored record has the
supplied name (or the old one), verifies against the supplied password
(or keeps the old hash), and keeps its email unchanged. -/
theorem profile_patch_update (e : String) (s : Store) (u : User)
    (n p : Option String) (h : findByEmail s e = some u) :
    (manageUser (some e)
        { method := .patch, nameField := n, passwordField := p } s).1.status
      = 200 ∧
    (∃ u2, findByEmail
        (manageUser (some e)
          { method := .patch, nameField := n, passwordField := p } s).2 e
        = some u2 ∧
      u2.email = u.email ∧
      u2.name = n.getD u.name ∧
      (∀ pw, p = some pw → u2.check_password pw = true) ∧
      (p = none → u2.passwordHash = u.passwordHash)) := by
  have hue : u.email = e := findByEmail_email h
  constructor
  · simp [manageUser, h]
  · refine ⟨patchedUser u n p, ?_, rfl, rfl, ?_, ?_⟩
    · have : (manageUser (some e)
          { method := .patch, nameField := n, passwordField := p } s).2
          = updateByEmail s e (patchedUser u n p) := by
        simp [manageUser, h]
      rw [this]
      exact findByEmail_update s e u (patchedUser u n p) h
        (by simp [patchedUser, hue])
    · intro pw hpw
      subst hpw
      simp [patchedUser, User.check_password]
    · intro hp
      subst hp
      rfl

/-- C8 witness: the fixture user patched with the payload of
`test_update_user_profile`. -/
theorem profile_patch_update_witness :
    (manageUser (some "debtest@gmail.com")
        { method := .patch, nameField := some "new name1",
          passwordField := some "newpass123" } [testUserRecord]).1.status
      = 200 ∧
    (∃ u2, findByEmail
        (manageUser (some "debtest@gmail.com")
          { method := .patch, nameField := some "new name1",
            passwordField := some "newpass123" } [testUserRecord]).2
        "debtest@gmail.com"
        = some u2 ∧
      u2.email = testUserRecord.email ∧
      u2.name = (some "new name1").getD testUserRecord.name ∧
      (∀ pw, some "newpass123" = some pw → u2.check_password pw = true) ∧
      (some "newpass123" = none →
        u2.passwordHash = testUserRecord.passwordHash)) :=
  profile_patch_update "debtest@gmail.com" [testUserRecord] testUserRecord
    (some "new name1") (some "newpass123") (by decide)

/-- C9: every authenticated POST to the profile endpoint — whatever body
fields it supplies — fails with 405 and an empty body, and the store, in
particular the caller's record, is unchanged. -/
theorem profile_post_not_allowed (e : String) (s : Store) (u : User)
    (req : MeRequest) (h : findByEmail s e = some u)
    (hm : req.method = .post) :
    manageUser (some e) req s = ({ status := 405, body := [] }, s) := by
  simp [manageUser, h, hm]

/-- C9 witness: the fixture user posting a field-carrying payload to the
profile endpoint still gets 405 and the store stays as it was. -/
theorem profile_post_not_allowed_witness :
    manageUser (some "debtest@gmail.com")
        { method := .post, nameField := some "new name1",
          passwordField := some "newpass123" } [testUserRecord]
      = ({ status := 405, body := [] }, [testUserRecord]) :=
  profile_post_not_allowed _ _ testUserRecord _ (by decide) rfl
